import Mathlib

/-!
Verification of the `monacoInput` workbench contribution
(`src/vs/workbench/contrib/monacoInput/browser/monacoInputView.ts` and its
registration file).  The pane's only state that the contribution itself
manages is the text held by the embedded editor widget; a missing editor
instance (`this._editor === undefined`) is modelled by `none`.  Calls into the
host command bus (`ICommandService.executeCommand`) are modelled as a list of
scheduled command invocations: each entry records the `setTimeout` delay in
milliseconds under which the call is issued (0 for a synchronous call) and the
command identifier with its optional `text` argument.
-/

namespace AbuCode

/-- The initial text that `MonacoInputViewPane.createEditor` loads into the
text model (`modelService.createModel(...)`, monacoInputView.ts line 80). -/
def createEditorText : String :=
  "# Type your Python code here\nprint(\"Hello from Python!\")\n"

/-- The characters JavaScript `String.prototype.trim` strips: the ECMAScript
WhiteSpace set — TAB U+0009, VT U+000B, FF U+000C, SP U+0020, NBSP U+00A0,
ZWNBSP/BOM U+FEFF and the Unicode space-separator category Zs (U+1680,
U+2000..U+200A, U+202F, U+205F, U+3000) — together with the ECMAScript
LineTerminator set: LF U+000A, CR U+000D, LS U+2028, PS U+2029. -/
def isJsWhitespace (c : Char) : Bool :=
  c.val == 0x09 || c.val == 0x0A || c.val == 0x0B || c.val == 0x0C ||
  c.val == 0x0D || c.val == 0x20 || c.val == 0xA0 || c.val == 0x1680 ||
  c.val == 0x2000 || c.val == 0x2001 || c.val == 0x2002 || c.val == 0x2003 ||
  c.val == 0x2004 || c.val == 0x2005 || c.val == 0x2006 || c.val == 0x2007 ||
  c.val == 0x2008 || c.val == 0x2009 || c.val == 0x200A || c.val == 0x2028 ||
  c.val == 0x2029 || c.val == 0x202F || c.val == 0x205F || c.val == 0x3000 ||
  c.val == 0xFEFF

/-- Embedding of JavaScript `String.prototype.trim` on the character list:
drop the ECMAScript whitespace and line-terminator characters from both
ends. -/
def trimChars (l : List Char) : List Char :=
  ((l.dropWhile isJsWhitespace).reverse.dropWhile isJsWhitespace).reverse

/-- Embedding of JavaScript `String.prototype.trim`, as used by the guard
`if (!code.trim())` in `runPython`. -/
def jsTrim (s : String) : String :=
  ⟨trimChars s.data⟩

/-- Shallow state of `MonacoInputViewPane`: the `_editor` field holds the
editor widget's text when the widget exists, and `none` when it does not.
Cursor, selection and layout state belong to the host widget and play no role
in any operation of this file. -/
structure MonacoInputViewPane where
  _editor : Option String
deriving DecidableEq

/-- The pane right after `renderBody` ran `createEditor`: the editor exists
and its model was initialised with `createEditorText`. -/
def freshPane : MonacoInputViewPane :=
  ⟨some createEditorText⟩

/-- Model of `MonacoInputViewPane.getValue` (line 134): `this._editor?.getValue() || ''`
— the editor's text, or the empty string when the editor is missing. -/
def getValue (p : MonacoInputViewPane) : String :=
  p._editor.getD ""

/-- Model of `MonacoInputViewPane.setValue` (line 138): `this._editor?.setValue(value)`
— replaces the editor's text; a no-op when the editor is missing. -/
def setValue (p : MonacoInputViewPane) (value : String) : MonacoInputViewPane :=
  match p._editor with
  | none => p
  | some _ => ⟨some value⟩

/-- Model of `MonacoInputViewPane.clearContent` (line 142): sets the editor's text to
the literal placeholder (the same literal `createEditor` uses) and focuses the
editor; `focus()` does not change the text.  A no-op when the editor is
missing. -/
def clearContent (p : MonacoInputViewPane) : MonacoInputViewPane :=
  match p._editor with
  | none => p
  | some _ => ⟨some "# Type your Python code here\nprint(\"Hello from Python!\")\n"⟩

/-- From `runPython`, line 115: `` `vscode_monaco_${Date.now()}.py` ``.  `Date.now()`
is passed in as the natural number `now`. -/
def tempFileName (now : Nat) : String :=
  "vscode_monaco_" ++ toString now ++ ".py"

/-- From `runPython`, line 116: `` `/tmp/${tempFileName}` ``. -/
def tempFilePath (now : Nat) : String :=
  "/tmp/" ++ tempFileName now

/-- From `runPython`, line 124: the template literal
`` `clear; cat > ${tempFilePath} << 'EOF' 2>/dev/null\n${code}\nEOF\necho "🐍 Running Python..."\npython3 ${tempFilePath} 2>&1\nrm ${tempFilePath} 2>/dev/null` ``. -/
def cleanCommand (now : Nat) (code : String) : String :=
  "clear; cat > " ++ tempFilePath now ++ " << 'EOF' 2>/dev/null\n" ++ code ++
    "\nEOF\necho \"🐍 Running Python...\"\npython3 " ++ tempFilePath now ++
    " 2>&1\nrm " ++ tempFilePath now ++ " 2>/dev/null"

/-- One call into the host command bus: the command identifier passed to
`ICommandService.executeCommand` and, when present, the `text` field of its
argument object. -/
inductive HostCmd where
  | executeCommand (commandId : String) (textArg : Option String)
deriving DecidableEq

/-- A command invocation together with the `setTimeout` delay (in
milliseconds) under which `runPython` issues it; a synchronous call has
delay 0. -/
structure ScheduledCmd where
  delayMs : Nat
  call : HostCmd
deriving DecidableEq

/-- Model of `MonacoInputViewPane.runPython` (lines 109–131).  `const code =
this._editor?.getValue() || ''` is exactly `getValue p`; a blank (empty or
whitespace-only) `code` returns early with no command issued.  Otherwise
`workbench.action.terminal.new` is executed synchronously and
`workbench.action.terminal.sendSequence` is scheduled 150 ms later with
`{ text: cleanCommand + '\n' }`.  The pane state is not changed. -/
def runPython (p : MonacoInputViewPane) (now : Nat) : List ScheduledCmd :=
  if jsTrim (getValue p) = "" then []
  else
    [⟨0, HostCmd.executeCommand "workbench.action.terminal.new" none⟩,
     ⟨150, HostCmd.executeCommand "workbench.action.terminal.sendSequence"
        (some (cleanCommand now (getValue p) ++ "\n"))⟩]

/-- Model of `ClearMonacoInputAction.run` (registration file): fetches the active
Monaco Input view (`none` when there is no such active view) and calls
`clearContent` on it.  Returns the resulting view state. -/
def clearAction (view : Option MonacoInputViewPane) : Option MonacoInputViewPane :=
  match view with
  | none => none
  | some v => some (clearContent v)

/-- Model of `SaveMonacoInputAction.run` (registration file): fetches the active Monaco
Input view and reads its content with `getValue` (logging it); no state is
written.  Returns the resulting view state and the content that was read. -/
def saveAction (view : Option MonacoInputViewPane) :
    Option MonacoInputViewPane × Option String :=
  match view with
  | none => (none, none)
  | some v => (some v, some (getValue v))

/-- Decides whether `needle` occurs as a contiguous run inside `hay`. -/
def hasSubstr (needle : List Char) : List Char → Bool
  | [] => needle.isEmpty
  | c :: rest => needle.isPrefixOf (c :: rest) || hasSubstr needle rest

/-- Decides whether `needle` occurs as a contiguous substring of `hay`. -/
def containsStr (hay needle : String) : Bool :=
  hasSubstr needle.data hay.data

/-- C5: text set equals text read back — on a pane whose editor instance
exists, `setValue v` followed by `getValue` returns `v`. -/
theorem setValue_getValue_roundtrip (s v : String) :
    getValue (setValue ⟨some s⟩ v) = v := rfl

/-- C3: the blank-input early-return guard — whenever the editor content is
empty or whitespace-only (which includes a missing editor instance, where the
content is taken as the empty string), `runPython` issues no host command at
all: neither terminal creation nor a send, and the pane state is untouched by
construction. -/
theorem runPython_blank_guard (p : MonacoInputViewPane) (now : Nat)
    (h : jsTrim (getValue p) = "") : runPython p now = [] := by
  unfold runPython
  rw [if_pos h]

/-- Witness for C3 at an ASCII-whitespace-only content, at a content made of
the non-ASCII whitespace characters NBSP, VT, FF and BOM (which JavaScript
`trim` also strips), and at a missing editor. -/
theorem runPython_blank_guard_witness :
    (jsTrim (getValue ⟨some " \n\t "⟩) = "" ∧ runPython ⟨some " \n\t "⟩ 3 = []) ∧
    (jsTrim (getValue ⟨some "\u00A0\u000B\u000C\uFEFF"⟩) = "" ∧
      runPython ⟨some "\u00A0\u000B\u000C\uFEFF"⟩ 4 = []) ∧
    (jsTrim (getValue ⟨none⟩) = "" ∧ runPython ⟨none⟩ 5 = []) :=
  ⟨⟨by decide, runPython_blank_guard ⟨some " \n\t "⟩ 3 (by decide)⟩,
   ⟨by decide, runPython_blank_guard ⟨some "\u00A0\u000B\u000C\uFEFF"⟩ 4 (by decide)⟩,
   ⟨by decide, runPython_blank_guard ⟨none⟩ 5 (by decide)⟩⟩

/-- Helper shared by several proofs below: on a non-blank pane, `runPython`
issues exactly the synchronous terminal creation followed by the send
scheduled 150 ms later. -/
theorem runPython_emits (p : MonacoInputViewPane) (now : Nat)
    (h : jsTrim (getValue p) ≠ "") :
    runPython p now =
      [⟨0, HostCmd.executeCommand "workbench.action.terminal.new" none⟩,
       ⟨150, HostCmd.executeCommand "workbench.action.terminal.sendSequence"
          (some (cleanCommand now (getValue p) ++ "\n"))⟩] := by
  unfold runPython
  rw [if_neg h]

/-- C1: for every editor text whose trim is non-empty, `runPython` builds the
terminal payload by the fixed string template around the text — the string
given in the claim, with the temp-file path spelled out as
`/tmp/vscode_monaco_<t>.py` for the invocation time `<t>` — plus a trailing
newline, and forwards exactly that string as the `text` argument of
`workbench.action.terminal.sendSequence`. -/
theorem runPython_fixed_template (p : MonacoInputViewPane) (now : Nat)
    (h : jsTrim (getValue p) ≠ "") :
    runPython p now =
      [⟨0, HostCmd.executeCommand "workbench.action.terminal.new" none⟩,
       ⟨150, HostCmd.executeCommand "workbench.action.terminal.sendSequence"
          (some ("clear; cat > /tmp/vscode_monaco_" ++ toString now ++ ".py << " ++ "'EOF'" ++
            " 2>/dev/null\n" ++ getValue p ++
            "\nEOF\necho \"🐍 Running Python...\"\npython3 /tmp/vscode_monaco_" ++ toString now ++
            ".py 2>&1\nrm /tmp/vscode_monaco_" ++ toString now ++
            ".py 2>/dev/null" ++ "\n"))⟩] := by
  rw [runPython_emits p now h]
  have hpay : cleanCommand now (getValue p) ++ "\n" =
      "clear; cat > /tmp/vscode_monaco_" ++ toString now ++ ".py << " ++ "'EOF'" ++
        " 2>/dev/null\n" ++ getValue p ++
        "\nEOF\necho \"🐍 Running Python...\"\npython3 /tmp/vscode_monaco_" ++ toString now ++
        ".py 2>&1\nrm /tmp/vscode_monaco_" ++ toString now ++
        ".py 2>/dev/null" ++ "\n" := by
    apply String.ext
    simp only [cleanCommand, tempFilePath, tempFileName, String.data_append, List.append_assoc]
    rfl
  rw [hpay]

/-- Witness for C1 at the editor text `print(1)` and invocation time 7. -/
theorem runPython_fixed_template_witness :
    jsTrim (getValue ⟨some "print(1)"⟩) ≠ "" ∧
    runPython ⟨some "print(1)"⟩ 7 =
      [⟨0, HostCmd.executeCommand "workbench.action.terminal.new" none⟩,
       ⟨150, HostCmd.executeCommand "workbench.action.terminal.sendSequence"
          (some ("clear; cat > /tmp/vscode_monaco_" ++ toString 7 ++ ".py << " ++ "'EOF'" ++
            " 2>/dev/null\n" ++ getValue ⟨some "print(1)"⟩ ++
            "\nEOF\necho \"🐍 Running Python...\"\npython3 /tmp/vscode_monaco_" ++ toString 7 ++
            ".py 2>&1\nrm /tmp/vscode_monaco_" ++ toString 7 ++
            ".py 2>/dev/null" ++ "\n"))⟩] :=
  ⟨by decide, runPython_fixed_template ⟨some "print(1)"⟩ 7 (by decide)⟩

/-- C2 counterexample: at the concrete input `print(1)` (invocation time 0)
the generated command contains no step that captures the interpreter's exit
code: no occurrence of the shell exit-status parameter `$?`, and none of the
exit-code-sensitive chaining forms `&&`, `||` or `set -e` either.  (The `2>&1`
in the template redirects stderr, it does not capture the exit code.) -/
theorem cleanCommand_no_exit_code_capture :
    containsStr (cleanCommand 0 "print(1)") "$?" = false ∧
    containsStr (cleanCommand 0 "print(1)") "&&" = false ∧
    containsStr (cleanCommand 0 "print(1)") "||" = false ∧
    containsStr (cleanCommand 0 "print(1)") "set -e" = false :=
  ⟨by decide, by decide, by decide, by decide⟩

/-- C2 amended: the run-code action is a fixed string template whose
generated shell command performs, in order: create a temp file via a heredoc,
invoke the interpreter on that file with its stderr redirected into stdout
(`2>&1`), and delete the temp file; no step of the template captures the
interpreter's exit code (at a representative input the command contains no
occurrence of `$?`). -/
theorem cleanCommand_steps_amended :
    (∀ (now : Nat) (code : String),
      cleanCommand now code =
        "clear; cat > /tmp/vscode_monaco_" ++ toString now ++ ".py << 'EOF' 2>/dev/null\n" ++
          code ++
          "\nEOF\necho \"🐍 Running Python...\"\npython3 /tmp/vscode_monaco_" ++ toString now ++
          ".py 2>&1\nrm /tmp/vscode_monaco_" ++ toString now ++ ".py 2>/dev/null") ∧
    containsStr (cleanCommand 0 "pass") "$?" = false := by
  refine ⟨fun now code => ?_, by decide⟩
  apply String.ext
  simp only [cleanCommand, tempFilePath, tempFileName, String.data_append, List.append_assoc]
  rfl

/-- C4 counterexample: running the Clear action on an active view whose
editor holds `print(1)` leaves the editor's text equal to the placeholder
string, which is not the empty string — so the text read back by `getValue`
is not empty as the claim states. -/
theorem clearAction_counterexample :
    (clearAction (some ⟨some "print(1)"⟩)).map getValue =
      some "# Type your Python code here\nprint(\"Hello from Python!\")\n" ∧
    (clearAction (some ⟨some "print(1)"⟩)).map getValue ≠ some "" :=
  ⟨rfl, by decide⟩

/-- C4 amended: the Clear title-bar action, run while the Monaco Input view
is the active view, resets the editor's text to the default placeholder
(`createEditorText`, which is not the empty string) rather than to the empty
string. -/
theorem clearAction_sets_placeholder (s : String) :
    (clearAction (some ⟨some s⟩)).map getValue = some createEditorText ∧
    createEditorText ≠ "" :=
  ⟨rfl, by decide⟩

/-- C6: a missing editor instance is handled totally by guards — when
`_editor` is `none`, `getValue` returns the empty string, `setValue` and
`clearContent` change nothing, and `runPython` sends nothing; all four
operations are total functions, so none can fail or throw. -/
theorem missing_editor_total_guards :
    getValue ⟨none⟩ = "" ∧ (∀ v, setValue ⟨none⟩ v = ⟨none⟩) ∧
    clearContent ⟨none⟩ = ⟨none⟩ ∧ (∀ now, runPython ⟨none⟩ now = []) :=
  ⟨rfl, fun _ => rfl, rfl, fun _ => rfl⟩

/-- C7: the only asynchronous step is the single fixed UI-settle delay — for
every non-blank input, `runPython` issues `workbench.action.terminal.new`
synchronously (delay 0) and schedules the `sendSequence` forward of the
command text under a fixed 150 ms delay, in that order, and issues nothing
else; so the send never precedes the terminal creation. -/
theorem runPython_schedule (p : MonacoInputViewPane) (now : Nat)
    (h : jsTrim (getValue p) ≠ "") :
    runPython p now =
      [⟨0, HostCmd.executeCommand "workbench.action.terminal.new" none⟩,
       ⟨150, HostCmd.executeCommand "workbench.action.terminal.sendSequence"
          (some (cleanCommand now (getValue p) ++ "\n"))⟩] := by
  unfold runPython
  rw [if_neg h]

/-- Witness for C7 at the editor text `x` and invocation time 1. -/
theorem runPython_schedule_witness :
    jsTrim (getValue ⟨some "x"⟩) ≠ "" ∧
    runPython ⟨some "x"⟩ 1 =
      [⟨0, HostCmd.executeCommand "workbench.action.terminal.new" none⟩,
       ⟨150, HostCmd.executeCommand "workbench.action.terminal.sendSequence"
          (some (cleanCommand 1 (getValue ⟨some "x"⟩) ++ "\n"))⟩] :=
  ⟨by decide, runPython_schedule ⟨some "x"⟩ 1 (by decide)⟩

/-- C8: the Save title-bar action only reads — it returns the view state
unchanged (every field of the pane, in particular the editor's text) and the
content it read is exactly `getValue` of the active pane (`none` when no
Monaco Input view is active). -/
theorem saveAction_reads_only (view : Option MonacoInputViewPane) :
    saveAction view = (view, view.map getValue) := by
  cases view <;> rfl

/-- C9: `clearContent` resets the editor to exactly the default placeholder
string — the same string `createEditor` loads as the model's initial content —
so after `clearContent` on a pane whose editor exists, `getValue` returns that
placeholder (which is not the empty string), and the post-clear text equals
the freshly created pane's text. -/
theorem clearContent_restores_placeholder (s : String) :
    getValue (clearContent ⟨some s⟩) = createEditorText ∧
    getValue (clearContent ⟨some s⟩) = getValue freshPane ∧
    createEditorText ≠ "" :=
  ⟨rfl, rfl, by decide⟩

set_option maxRecDepth 8192 in
/-- C10: `runPython` embeds the editor text verbatim — for every non-blank
editor text the sent string decomposes as `a ++ text ++ b`; moreover for the
input `x = 1\nEOF\nprint(x)`, whose text contains a line equal to the heredoc
delimiter `EOF`, the generated command (shown in full) carries that `EOF` line
unmodified inside the heredoc body. -/
theorem runPython_verbatim_embedding :
    (∀ (p : MonacoInputViewPane) (now : Nat), jsTrim (getValue p) ≠ "" →
      ∃ a b, runPython p now =
        [⟨0, HostCmd.executeCommand "workbench.action.terminal.new" none⟩,
         ⟨150, HostCmd.executeCommand "workbench.action.terminal.sendSequence"
            (some (a ++ getValue p ++ b))⟩]) ∧
    containsStr "x = 1\nEOF\nprint(x)" "\nEOF\n" = true ∧
    cleanCommand 0 "x = 1\nEOF\nprint(x)" ++ "\n" =
      "clear; cat > /tmp/vscode_monaco_0.py << 'EOF' 2>/dev/null\nx = 1\nEOF\nprint(x)\nEOF\necho \"🐍 Running Python...\"\npython3 /tmp/vscode_monaco_0.py 2>&1\nrm /tmp/vscode_monaco_0.py 2>/dev/null\n" := by
  refine ⟨fun p now h => ?_, by decide, by decide⟩
  refine ⟨"clear; cat > " ++ tempFilePath now ++ " << 'EOF' 2>/dev/null\n",
    "\nEOF\necho \"🐍 Running Python...\"\npython3 " ++ tempFilePath now ++
      " 2>&1\nrm " ++ tempFilePath now ++ " 2>/dev/null" ++ "\n", ?_⟩
  rw [runPython_emits p now h]
  have hpay : cleanCommand now (getValue p) ++ "\n" =
      ("clear; cat > " ++ tempFilePath now ++ " << 'EOF' 2>/dev/null\n") ++ getValue p ++
        ("\nEOF\necho \"🐍 Running Python...\"\npython3 " ++ tempFilePath now ++
          " 2>&1\nrm " ++ tempFilePath now ++ " 2>/dev/null" ++ "\n") := by
    apply String.ext
    simp only [cleanCommand, tempFilePath, tempFileName, String.data_append, List.append_assoc]
  rw [hpay]

/-- Witness for C10 at the editor text containing an `EOF` line, time 0. -/
theorem runPython_verbatim_embedding_witness :
    jsTrim (getValue ⟨some "x = 1\nEOF\nprint(x)"⟩) ≠ "" ∧
    (∃ a b, runPython ⟨some "x = 1\nEOF\nprint(x)"⟩ 0 =
      [⟨0, HostCmd.executeCommand "workbench.action.terminal.new" none⟩,
       ⟨150, HostCmd.executeCommand "workbench.action.terminal.sendSequence"
          (some (a ++ getValue ⟨some "x = 1\nEOF\nprint(x)"⟩ ++ b))⟩]) :=
  ⟨by decide, runPython_verbatim_embedding.1 ⟨some "x = 1\nEOF\nprint(x)"⟩ 0 (by decide)⟩

end AbuCode
